import Mathlib

/-!
Verification of `mimic/evaluation.py` (DPautoGAN evaluation harness).

The embedding models a pandas `DataFrame` as a list of column names
together with a list of rows of rational values, Python exceptions as
`Except String`, the caller-supplied model factory as a function from
(training features, training labels, test features) to an optional
prediction vector (`none` = fit/predict raised), and the caller-supplied
scoring function as a function returning `Except String ℚ` (`.error` =
score raised).
-/

/-- A pandas DataFrame: named columns over rectangular numeric data. -/
structure DataFrame where
  columns : List String
  rows : List (List ℚ)
deriving Repr

/-- Python `set(a) == set(b)` on column labels. -/
def eqSet (a b : List String) : Bool :=
  a.all (b.contains ·) && b.all (a.contains ·)

/-- `isolate_column(df, column)`: splits a dataframe into the rest of the
dataframe (feature matrix) and the given column (label vector).
`df.drop(columns=[column])` raises `KeyError` when the column is absent. -/
def isolate_column (df : DataFrame) (column : String) :
    Except String (List (List ℚ) × List ℚ) :=
  match df.columns.findIdx? (· == column) with
  | none => .error ("KeyError: " ++ column)
  | some idx => .ok (df.rows.map (fun r => r.eraseIdx idx),
                     df.rows.map (fun r => r.getD idx 0))

/-- `df[column]` as a value vector; `KeyError` when the column is absent. -/
def getCol (df : DataFrame) (column : String) : Except String (List ℚ) :=
  match df.columns.findIdx? (· == column) with
  | none => .error ("KeyError: " ++ column)
  | some idx => .ok (df.rows.map (fun r => r.getD idx 0))

/-- Insertion into a sorted list (ascending). -/
def insertSorted (x : ℚ) : List ℚ → List ℚ
  | [] => [x]
  | y :: ys => if x ≤ y then x :: y :: ys else y :: insertSorted x ys

/-- Insertion sort, ascending. -/
def sortList (l : List ℚ) : List ℚ := l.foldr insertSorted []

/-- `np.unique(l)`: the sorted list of distinct values of `l`. -/
def np_unique (l : List ℚ) : List ℚ := (sortList l).dedup

/-- `np.unique(l, return_counts=True)`: sorted distinct values paired with
the multiplicity of each in `l`. -/
def np_unique_counts (l : List ℚ) : List ℚ × List Nat :=
  let u := np_unique l
  (u, u.map (fun v => l.count v))

/-- The model factory plus `clf.fit(X_train, y_train)` and
`clf.predict_proba(X_test)[:,1]`, collapsed into one deterministic function;
`none` means fit or predict raised an exception. -/
abbrev ModelFn := List (List ℚ) → List ℚ → List (List ℚ) → Option (List ℚ)

/-- The scoring function `score(y_true, y_pred)`; `.error` means it raised. -/
abbrev ScoreFn := List ℚ → List ℚ → Except String ℚ

/-- `get_prediction_score(X_train, y_train, X_test, y_test, Model, score)`:
raises (a bare `raise`, i.e. a generic `RuntimeError`) when either unique
label set is empty; otherwise fits/predicts, falling back on exception to a
constant vector `np.full(y_test.shape, y_train[0])`, and scores. -/
def get_prediction_score (X_train : List (List ℚ)) (y_train : List ℚ)
    (X_test : List (List ℚ)) (y_test : List ℚ)
    (Model : ModelFn) (score : ScoreFn) : Except String ℚ :=
  if (np_unique y_train).length = 0 ∨ (np_unique y_test).length = 0 then
    .error "RuntimeError: No active exception to re-raise"
  else
    score y_test
      (match Model X_train y_train X_test with
       | some p => p
       | none => y_test.map (fun _ => y_train.headD 0))

/-- The three per-column isolations of `feature_prediction_evaluation`
(real-train, synthetic, test), which run outside the per-column handler. -/
structure IsoData where
  Xtr : List (List ℚ)
  ytr : List ℚ
  Xsyn : List (List ℚ)
  ysyn : List ℚ
  Xte : List (List ℚ)
  yte : List ℚ

/-- Lines 97-99 of the loop body: the three `isolate_column` calls, in
source order; any failure propagates. -/
def columnIsolates (train test synthetic : DataFrame) (c : String) :
    Except String IsoData :=
  match isolate_column train c with
  | .error e => .error e
  | .ok (xtr, ytr) =>
    match isolate_column synthetic c with
    | .error e => .error e
    | .ok (xs, ys) =>
      match isolate_column test c with
      | .error e => .error e
      | .ok (xte, yte) => .ok ⟨xtr, ytr, xs, ys, xte, yte⟩

/-- The pair of scores a single column produces (real first, then
synthetic, both against the same holdout), or the first exception raised. -/
def columnScores (train test synthetic : DataFrame) (M : ModelFn)
    (sc : ScoreFn) (c : String) : Except String (ℚ × ℚ) :=
  match columnIsolates train test synthetic c with
  | .error e => .error e
  | .ok d =>
    match get_prediction_score d.Xtr d.ytr d.Xte d.yte M sc with
    | .error e => .error e
    | .ok r =>
      match get_prediction_score d.Xsyn d.ysyn d.Xte d.yte M sc with
      | .error e => .error e
      | .ok s => .ok (r, s)

/-- The `for column in train.columns` loop: isolation failures propagate;
a fit/predict/score failure inside the `try` skips the column (both score
lists untouched); on success both scores are appended. Returns
(`real_classifier_scores`, `synthetic_classifier_scores`). -/
def evalScores (train test synthetic : DataFrame) (M : ModelFn)
    (sc : ScoreFn) : List String → Except String (List ℚ × List ℚ)
  | [] => .ok ([], [])
  | c :: cs =>
    match columnIsolates train test synthetic c with
    | .error e => .error e
    | .ok _ =>
      match evalScores train test synthetic M sc cs with
      | .error e => .error e
      | .ok (rs, ss) =>
        match columnScores train test synthetic M sc c with
        | .error _ => .ok (rs, ss)
        | .ok (r, s) => .ok (r :: rs, s :: ss)

/-- `sum(map(lambda pair: (pair[0] - pair[1]) ** 2, zip(rs, ss)))`. -/
def aggregate (rs ss : List ℚ) : ℚ :=
  ((rs.zip ss).map (fun p => (p.1 - p.2) ^ 2)).sum

/-- `feature_prediction_evaluation(train, test, synthetic, Model, score,
training_proportion, plot)`. The schema check compares the `train` and
`synthetic` column sets; `training_proportion` and `plot` do not affect the
returned value (`plot` only triggers rendering/CSV side effects). -/
def feature_prediction_evaluation (train test synthetic : DataFrame)
    (M : ModelFn) (sc : ScoreFn) (training_proportion : ℚ) (plot : Bool) :
    Except String ℚ :=
  if eqSet train.columns synthetic.columns then
    match evalScores train test synthetic M sc train.columns with
    | .error e => .error e
    | .ok (rs, ss) => .ok (aggregate rs ss)
  else .error "Columns of given datasets are not identical."

/-- `(0 if len(counts) <= 1 else counts[1]) / len(col)`: `ZeroDivisionError`
on an empty column, else the empirical probability of the second sorted
distinct value (0 when there are fewer than two distinct values). -/
def compute_prop (col : List ℚ) : Except String ℚ :=
  if col.length = 0 then .error "ZeroDivisionError: division by zero"
  else .ok ((if (np_unique_counts col).2.length ≤ 1 then 0
             else ((np_unique_counts col).2.getD 1 0 : ℚ)) / (col.length : ℚ))

/-- The `for column in real.columns` loop of
`feature_probabilities_evaluation`: per column the pair
(`props.at[column, 'real']`, `props.at[column, 'synthetic']`). -/
def propsLoop (real synthetic : DataFrame) :
    List String → Except String (List (ℚ × ℚ))
  | [] => .ok []
  | c :: cs =>
    match getCol real c with
    | .error e => .error e
    | .ok colR =>
      match getCol synthetic c with
      | .error e => .error e
      | .ok colS =>
        match compute_prop colR with
        | .error e => .error e
        | .ok pR =>
          match compute_prop colS with
          | .error e => .error e
          | .ok pS =>
            match propsLoop real synthetic cs with
            | .error e => .error e
            | .ok ps => .ok ((pR, pS) :: ps)

/-- `feature_probabilities_evaluation(real, synthetic, plot)`. -/
def feature_probabilities_evaluation (real synthetic : DataFrame)
    (plot : Bool) : Except String ℚ :=
  if eqSet real.columns synthetic.columns then
    match propsLoop real synthetic real.columns with
    | .error e => .error e
    | .ok ps => .ok ((ps.map (fun p => (p.1 - p.2) ^ 2)).sum)
  else .error "Columns of given datasets are not identical."

/-- A column's contribution to the aggregate: `(real − synthetic)²` when its
evaluation succeeded, `0` when it was skipped. -/
def columnContribution (train test synthetic : DataFrame) (M : ModelFn)
    (sc : ScoreFn) (c : String) : ℚ :=
  match columnScores train test synthetic M sc c with
  | .ok p => (p.1 - p.2) ^ 2
  | .error _ => 0

/-- The marginal probability of a column as the spec words it: the count of
the second distinct observed value (index 1 of the sorted unique values)
divided by the number of rows, with 0 when the column has fewer than two
distinct values. -/
def claim_marginal (df : DataFrame) (c : String) : ℚ :=
  match getCol df c with
  | .error _ => 0
  | .ok col =>
    if (np_unique col).length < 2 then 0
    else ((col.count ((np_unique col).getD 1 0) : ℚ)) / (col.length : ℚ)


/-- Whether a column's evaluation succeeded (no exception in
fit/predict/score for either the real-trained or synthetic-trained model). -/
def columnSucceeded (train test synthetic : DataFrame) (M : ModelFn)
    (sc : ScoreFn) (c : String) : Bool :=
  match columnScores train test synthetic M sc c with
  | .ok _ => true
  | .error _ => false

/-! ## Concrete data for witnesses and counterexamples -/

/-- The spec's end-to-end example real-train table: columns A,B with rows
[[0,1],[1,0],[0,1],[1,1]]. -/
def exTrain : DataFrame := ⟨["A", "B"], [[0, 1], [1, 0], [0, 1], [1, 1]]⟩

/-- The spec's end-to-end example real-test table: rows [[0,1],[1,0]]. -/
def exTest : DataFrame := ⟨["A", "B"], [[0, 1], [1, 0]]⟩

/-- A synthetic table over the same columns with all entries 1. -/
def exSynth : DataFrame := ⟨["A", "B"], [[1, 1], [1, 1], [1, 1], [1, 1]]⟩

/-- A test table lacking column B (present in train and synthetic). -/
def exTestShort : DataFrame := ⟨["A"], [[0], [1]]⟩

/-- A table whose column set differs from exTrain's. -/
def exMism : DataFrame := ⟨["A", "C"], [[0, 1], [1, 0]]⟩

/-- Real table for the marginal-probability witness: column A constant 1,
column B with values 0,1,1,0. -/
def exReal6 : DataFrame := ⟨["A", "B"], [[1, 0], [1, 1], [1, 1], [1, 0]]⟩

/-- Synthetic table for the marginal-probability witness: column A constant
1, column B with values 1,1,0,1. -/
def exSynth6 : DataFrame := ⟨["A", "B"], [[1, 1], [1, 1], [1, 0], [1, 1]]⟩

/-- A deterministic model that predicts the first training label for every
test row. -/
def exModel2 : ModelFn := fun _ ytr Xte => some (Xte.map (fun _ => ytr.headD 0))

/-- A model whose fit/predict always raises. -/
def exModelFail : ModelFn := fun _ _ _ => none

/-- A deterministic scoring function: the sum of the prediction vector. -/
def exScoreSum : ScoreFn := fun _ yp => .ok yp.sum

/-- A scoring function that always raises. -/
def exScoreFail : ScoreFn := fun _ _ => .error "ValueError: could not score"

/-! ## Helper lemmas -/

theorem insertSorted_ne_nil (x : ℚ) (l : List ℚ) : insertSorted x l ≠ [] := by
  cases l with
  | nil => simp [insertSorted]
  | cons y ys =>
    simp only [insertSorted]
    split
    · exact List.cons_ne_nil _ _
    · exact List.cons_ne_nil _ _

theorem sortList_eq_nil_iff (l : List ℚ) : sortList l = [] ↔ l = [] := by
  cases l with
  | nil => simp [sortList]
  | cons x xs =>
    simp only [sortList, List.foldr_cons]
    exact ⟨fun h => absurd h (insertSorted_ne_nil x _), fun h => by simp at h⟩

theorem np_unique_eq_nil_iff (l : List ℚ) : np_unique l = [] ↔ l = [] := by
  unfold np_unique
  rw [List.dedup_eq_nil, sortList_eq_nil_iff]

theorem isolate_column_error_of_not_mem (df : DataFrame) (c : String)
    (h : c ∉ df.columns) : isolate_column df c = .error ("KeyError: " ++ c) := by
  unfold isolate_column
  have hf : df.columns.findIdx? (· == c) = none := by
    rw [List.findIdx?_eq_none_iff]
    intro x hx
    rw [beq_eq_false_iff_ne]
    intro he
    exact h (he ▸ hx)
  rw [hf]

theorem isolate_column_ok_of_mem (df : DataFrame) (c : String)
    (h : c ∈ df.columns) : ∃ v, isolate_column df c = .ok v := by
  unfold isolate_column
  have hs : (df.columns.findIdx? (· == c)).isSome := by
    rw [List.findIdx?_isSome]
    exact List.any_eq_true.mpr ⟨c, h, by simp⟩
  cases hf : df.columns.findIdx? (· == c) with
  | none => rw [hf] at hs; simp at hs
  | some idx => exact ⟨_, rfl⟩

theorem isolate_column_mem_of_ok (df : DataFrame) (c : String)
    (v : List (List ℚ) × List ℚ) (h : isolate_column df c = .ok v) :
    c ∈ df.columns := by
  by_contra hmem
  rw [isolate_column_error_of_not_mem df c hmem] at h
  exact Except.noConfusion h

theorem eqSet_iff (a b : List String) :
    eqSet a b = true ↔ ∀ x, x ∈ a ↔ x ∈ b := by
  unfold eqSet
  simp only [Bool.and_eq_true, List.all_eq_true]
  constructor
  · rintro ⟨h1, h2⟩ x
    exact ⟨fun hx => List.mem_of_elem_eq_true (h1 x hx),
           fun hx => List.mem_of_elem_eq_true (h2 x hx)⟩
  · intro h
    exact ⟨fun x hx => List.elem_eq_true_of_mem ((h x).mp hx),
           fun x hx => List.elem_eq_true_of_mem ((h x).mpr hx)⟩

theorem eqSet_symm (a b : List String) (h : eqSet a b = true) :
    eqSet b a = true := by
  rw [eqSet_iff] at h ⊢
  intro x
  exact (h x).symm

theorem aggregate_cons (r s : ℚ) (rs ss : List ℚ) :
    aggregate (r :: rs) (s :: ss) = (r - s) ^ 2 + aggregate rs ss := by
  simp [aggregate]

theorem isolate_column_error_eq (df : DataFrame) (c e : String)
    (h : isolate_column df c = .error e) : e = "KeyError: " ++ c := by
  unfold isolate_column at h
  cases hf : df.columns.findIdx? (· == c) with
  | none => rw [hf] at h; simp only [Except.error.injEq] at h; exact h.symm
  | some idx => rw [hf] at h; exact absurd h (by simp)

theorem columnIsolates_shape (train test synthetic : DataFrame) (c : String) :
    (∃ d, columnIsolates train test synthetic c = .ok d) ∨
    columnIsolates train test synthetic c = .error ("KeyError: " ++ c) := by
  unfold columnIsolates
  cases h1 : isolate_column train c with
  | error e1 =>
    obtain rfl := isolate_column_error_eq _ _ _ h1
    right
    rfl
  | ok v1 =>
    obtain ⟨x1, y1⟩ := v1
    cases h2 : isolate_column synthetic c with
    | error e2 =>
      obtain rfl := isolate_column_error_eq _ _ _ h2
      right
      rfl
    | ok v2 =>
      obtain ⟨x2, y2⟩ := v2
      cases h3 : isolate_column test c with
      | error e3 =>
        obtain rfl := isolate_column_error_eq _ _ _ h3
        right
        rfl
      | ok v3 =>
        obtain ⟨x3, y3⟩ := v3
        exact Or.inl ⟨_, rfl⟩

theorem columnIsolates_ok_iff (train test synthetic : DataFrame) (c : String) :
    (∃ d, columnIsolates train test synthetic c = .ok d) ↔
    (c ∈ train.columns ∧ c ∈ synthetic.columns ∧ c ∈ test.columns) := by
  constructor
  · rintro ⟨d, hd⟩
    unfold columnIsolates at hd
    cases h1 : isolate_column train c with
    | error e1 => rw [h1] at hd; exact absurd hd (by simp)
    | ok v1 =>
      obtain ⟨x1, y1⟩ := v1
      rw [h1] at hd
      cases h2 : isolate_column synthetic c with
      | error e2 => rw [h2] at hd; exact absurd hd (by simp)
      | ok v2 =>
        obtain ⟨x2, y2⟩ := v2
        rw [h2] at hd
        cases h3 : isolate_column test c with
        | error e3 => rw [h3] at hd; exact absurd hd (by simp)
        | ok v3 =>
          exact ⟨isolate_column_mem_of_ok _ _ _ h1,
                 isolate_column_mem_of_ok _ _ _ h2,
                 isolate_column_mem_of_ok _ _ _ h3⟩
  · rintro ⟨m1, m2, m3⟩
    obtain ⟨v1, h1⟩ := isolate_column_ok_of_mem _ _ m1
    obtain ⟨v2, h2⟩ := isolate_column_ok_of_mem _ _ m2
    obtain ⟨v3, h3⟩ := isolate_column_ok_of_mem _ _ m3
    obtain ⟨x1, y1⟩ := v1
    obtain ⟨x2, y2⟩ := v2
    obtain ⟨x3, y3⟩ := v3
    refine ⟨⟨x1, y1, x2, y2, x3, y3⟩, ?_⟩
    unfold columnIsolates
    rw [h1, h2, h3]

theorem evalScores_ok_iff (train test synthetic : DataFrame) (M : ModelFn)
    (sc : ScoreFn) (cols : List String) :
    (∃ p, evalScores train test synthetic M sc cols = .ok p) ↔
    ∀ c ∈ cols, ∃ d, columnIsolates train test synthetic c = .ok d := by
  induction cols with
  | nil => simp [evalScores]
  | cons c cs ih =>
    simp only [evalScores, List.mem_cons]
    cases hiso : columnIsolates train test synthetic c with
    | error e =>
      constructor
      · rintro ⟨p, hp⟩; exact absurd hp (by simp)
      · intro h
        obtain ⟨d, hd⟩ := h c (Or.inl rfl)
        rw [hiso] at hd
        exact absurd hd (by simp)
    | ok d =>
      cases hrec : evalScores train test synthetic M sc cs with
      | error e =>
        constructor
        · rintro ⟨p, hp⟩; exact absurd hp (by simp)
        · intro h
          have : ∃ p, evalScores train test synthetic M sc cs = .ok p :=
            ih.mpr (fun x hx => h x (Or.inr hx))
          rw [hrec] at this
          obtain ⟨p, hp⟩ := this
          exact absurd hp (by simp)
      | ok p =>
        obtain ⟨rs, ss⟩ := p
        constructor
        · intro _ x hx
          rcases hx with rfl | hx
          · exact ⟨d, hiso⟩
          · exact (ih.mp ⟨_, hrec⟩) x hx
        · intro _
          cases hcs : columnScores train test synthetic M sc c with
          | error e => exact ⟨_, rfl⟩
          | ok q => obtain ⟨r, s⟩ := q; exact ⟨_, rfl⟩

theorem evalScores_length (train test synthetic : DataFrame) (M : ModelFn)
    (sc : ScoreFn) : ∀ (cols : List String) (rs ss : List ℚ),
    evalScores train test synthetic M sc cols = .ok (rs, ss) →
    rs.length = ss.length := by
  intro cols
  induction cols with
  | nil =>
    intro rs ss h
    simp only [evalScores, Except.ok.injEq, Prod.mk.injEq] at h
    obtain ⟨h1, h2⟩ := h
    rw [← h1, ← h2]
  | cons c cs ih =>
    intro rs ss h
    simp only [evalScores] at h
    cases hiso : columnIsolates train test synthetic c with
    | error e => rw [hiso] at h; exact absurd h (by simp)
    | ok d =>
      rw [hiso] at h
      cases hrec : evalScores train test synthetic M sc cs with
      | error e => rw [hrec] at h; exact absurd h (by simp)
      | ok p =>
        obtain ⟨rs', ss'⟩ := p
        rw [hrec] at h
        cases hcs : columnScores train test synthetic M sc c with
        | error e =>
          rw [hcs] at h
          simp only [Except.ok.injEq, Prod.mk.injEq] at h
          obtain ⟨h1, h2⟩ := h
          rw [← h1, ← h2]
          exact ih rs' ss' hrec
        | ok q =>
          obtain ⟨r, s⟩ := q
          rw [hcs] at h
          simp only [Except.ok.injEq, Prod.mk.injEq] at h
          obtain ⟨h1, h2⟩ := h
          rw [← h1, ← h2]
          simp only [List.length_cons]
          rw [ih rs' ss' hrec]

theorem evalScores_ok_aggregate (train test synthetic : DataFrame)
    (M : ModelFn) (sc : ScoreFn) : ∀ (cols : List String) (rs ss : List ℚ),
    evalScores train test synthetic M sc cols = .ok (rs, ss) →
    aggregate rs ss =
      (cols.map (columnContribution train test synthetic M sc)).sum := by
  intro cols
  induction cols with
  | nil =>
    intro rs ss h
    simp only [evalScores, Except.ok.injEq, Prod.mk.injEq] at h
    obtain ⟨h1, h2⟩ := h
    rw [← h1, ← h2]
    simp [aggregate]
  | cons c cs ih =>
    intro rs ss h
    simp only [evalScores] at h
    cases hiso : columnIsolates train test synthetic c with
    | error e => rw [hiso] at h; exact absurd h (by simp)
    | ok d =>
      rw [hiso] at h
      cases hrec : evalScores train test synthetic M sc cs with
      | error e => rw [hrec] at h; exact absurd h (by simp)
      | ok p =>
        obtain ⟨rs', ss'⟩ := p
        rw [hrec] at h
        cases hcs : columnScores train test synthetic M sc c with
        | error e =>
          rw [hcs] at h
          simp only [Except.ok.injEq, Prod.mk.injEq] at h
          obtain ⟨h1, h2⟩ := h
          rw [← h1, ← h2]
          simp only [List.map_cons, List.sum_cons, columnContribution, hcs]
          rw [ih rs' ss' hrec, zero_add]
        | ok q =>
          obtain ⟨r, s⟩ := q
          rw [hcs] at h
          simp only [Except.ok.injEq, Prod.mk.injEq] at h
          obtain ⟨h1, h2⟩ := h
          rw [← h1, ← h2, aggregate_cons]
          simp only [List.map_cons, List.sum_cons, columnContribution, hcs]
          rw [ih rs' ss' hrec]

theorem evalScores_error_shape (train test synthetic : DataFrame)
    (M : ModelFn) (sc : ScoreFn) : ∀ (cols : List String) (e : String),
    evalScores train test synthetic M sc cols = .error e →
    ∃ c ∈ cols, e = "KeyError: " ++ c ∧
      columnIsolates train test synthetic c = .error e := by
  intro cols
  induction cols with
  | nil => intro e h; exact absurd h (by simp [evalScores])
  | cons c cs ih =>
    intro e h
    simp only [evalScores] at h
    cases hiso : columnIsolates train test synthetic c with
    | error e' =>
      rw [hiso] at h
      simp only [Except.error.injEq] at h
      subst h
      rcases columnIsolates_shape train test synthetic c with ⟨d, hd⟩ | herr
      · rw [hiso] at hd; exact absurd hd (by simp)
      · rw [hiso] at herr
        simp only [Except.error.injEq] at herr
        exact ⟨c, List.mem_cons_self c cs, herr, herr ▸ hiso⟩
    | ok d =>
      rw [hiso] at h
      cases hrec : evalScores train test synthetic M sc cs with
      | error e' =>
        rw [hrec] at h
        simp only [Except.error.injEq] at h
        subst h
        obtain ⟨c', hc', he, hisoc⟩ := ih e' hrec
        exact ⟨c', List.mem_cons_of_mem _ hc', he, hisoc⟩
      | ok p =>
        obtain ⟨rs, ss⟩ := p
        rw [hrec] at h
        cases hcs : columnScores train test synthetic M sc c with
        | error e'' => rw [hcs] at h; exact absurd h (by simp)
        | ok q => obtain ⟨r, s⟩ := q; rw [hcs] at h; exact absurd h (by simp)

theorem get_prediction_score_error_of_nil (X_train : List (List ℚ))
    (y_train : List ℚ) (X_test : List (List ℚ)) (y_test : List ℚ)
    (M : ModelFn) (sc : ScoreFn) (h : y_train = [] ∨ y_test = []) :
    get_prediction_score X_train y_train X_test y_test M sc =
      .error "RuntimeError: No active exception to re-raise" := by
  unfold get_prediction_score
  rw [if_pos]
  rcases h with h | h
  · exact Or.inl (by rw [h]; simp [np_unique, sortList])
  · exact Or.inr (by rw [h]; simp [np_unique, sortList])

theorem columnScores_error_of_gps (train test synthetic : DataFrame)
    (M : ModelFn) (sc : ScoreFn) (c : String) (d : IsoData)
    (hiso : columnIsolates train test synthetic c = .ok d)
    (hfail : (∃ e, get_prediction_score d.Xtr d.ytr d.Xte d.yte M sc = .error e) ∨
             (∃ e, get_prediction_score d.Xsyn d.ysyn d.Xte d.yte M sc = .error e)) :
    ∃ e, columnScores train test synthetic M sc c = .error e := by
  unfold columnScores
  simp only [hiso]
  cases h1 : get_prediction_score d.Xtr d.ytr d.Xte d.yte M sc with
  | error e => exact ⟨e, rfl⟩
  | ok r =>
    cases h2 : get_prediction_score d.Xsyn d.ysyn d.Xte d.yte M sc with
    | error e => exact ⟨e, rfl⟩
    | ok s =>
      rcases hfail with ⟨e, he⟩ | ⟨e, he⟩
      · rw [h1] at he; exact absurd he (by simp)
      · rw [h2] at he; exact absurd he (by simp)

theorem columnScores_error_of_iso (train test synthetic : DataFrame)
    (M : ModelFn) (sc : ScoreFn) (c : String) (e : String)
    (h : columnIsolates train test synthetic c = .error e) :
    columnScores train test synthetic M sc c = .error e := by
  unfold columnScores
  simp only [h]

theorem columnScores_eq_of_iso (train test synthetic : DataFrame)
    (M : ModelFn) (sc : ScoreFn) (c : String) (d : IsoData)
    (hiso : columnIsolates train test synthetic c = .ok d) :
    columnScores train test synthetic M sc c =
      (match get_prediction_score d.Xtr d.ytr d.Xte d.yte M sc with
       | .error e => .error e
       | .ok r =>
         match get_prediction_score d.Xsyn d.ysyn d.Xte d.yte M sc with
         | .error e => .error e
         | .ok s => .ok (r, s)) := by
  unfold columnScores
  simp only [hiso]

theorem columnIsolates_eq_ok_iff (train test synthetic : DataFrame)
    (c : String) (d : IsoData) :
    columnIsolates train test synthetic c = .ok d ↔
    (isolate_column train c = .ok (d.Xtr, d.ytr) ∧
     isolate_column synthetic c = .ok (d.Xsyn, d.ysyn) ∧
     isolate_column test c = .ok (d.Xte, d.yte)) := by
  obtain ⟨a1, b1, a2, b2, a3, b3⟩ := d
  unfold columnIsolates
  cases h1 : isolate_column train c with
  | error e1 => simp
  | ok v1 =>
    obtain ⟨x1, y1⟩ := v1
    cases h2 : isolate_column synthetic c with
    | error e2 => simp
    | ok v2 =>
      obtain ⟨x2, y2⟩ := v2
      cases h3 : isolate_column test c with
      | error e3 => simp
      | ok v3 =>
        obtain ⟨x3, y3⟩ := v3
        simp only [Except.ok.injEq, IsoData.mk.injEq, Prod.mk.injEq]
        tauto

theorem columnContribution_swap (train test synthetic : DataFrame)
    (M : ModelFn) (sc : ScoreFn) (c : String) :
    columnContribution synthetic test train M sc c =
      columnContribution train test synthetic M sc c := by
  unfold columnContribution
  cases hiso : columnIsolates train test synthetic c with
  | error e =>
    cases hiso2 : columnIsolates synthetic test train c with
    | error e2 =>
      rw [columnScores_error_of_iso _ _ _ M sc _ _ hiso,
          columnScores_error_of_iso _ _ _ M sc _ _ hiso2]
    | ok d2 =>
      exfalso
      have hm := (columnIsolates_ok_iff synthetic test train c).mp ⟨d2, hiso2⟩
      have hfwd : ∃ d, columnIsolates train test synthetic c = .ok d :=
        (columnIsolates_ok_iff train test synthetic c).mpr
          ⟨hm.2.1, hm.1, hm.2.2⟩
      obtain ⟨d', hd'⟩ := hfwd
      rw [hiso] at hd'
      exact absurd hd' (by simp)
  | ok d =>
    have hswap : columnIsolates synthetic test train c =
        .ok ⟨d.Xsyn, d.ysyn, d.Xtr, d.ytr, d.Xte, d.yte⟩ := by
      rw [columnIsolates_eq_ok_iff] at hiso ⊢
      exact ⟨hiso.2.1, hiso.1, hiso.2.2⟩
    rw [columnScores_eq_of_iso _ _ _ M sc c d hiso,
        columnScores_eq_of_iso _ _ _ M sc c _ hswap]
    cases g1 : get_prediction_score d.Xtr d.ytr d.Xte d.yte M sc with
    | error e1 =>
      cases g2 : get_prediction_score d.Xsyn d.ysyn d.Xte d.yte M sc with
      | error e2 => rfl
      | ok s => rfl
    | ok r =>
      cases g2 : get_prediction_score d.Xsyn d.ysyn d.Xte d.yte M sc with
      | error e2 => rfl
      | ok s =>
        show (s - r) ^ 2 = (r - s) ^ 2
        ring

theorem eqSet_refl (a : List String) : eqSet a a = true := by
  rw [eqSet_iff]
  intro x
  exact Iff.rfl

theorem columnContribution_self (train test : DataFrame) (M : ModelFn)
    (sc : ScoreFn) (c : String) :
    columnContribution train test train M sc c = 0 := by
  unfold columnContribution
  cases hiso : columnIsolates train test train c with
  | error e => rw [columnScores_error_of_iso _ _ _ M sc _ _ hiso]
  | ok d =>
    have h := (columnIsolates_eq_ok_iff train test train c d).mp hiso
    have h12 : d.Xtr = d.Xsyn ∧ d.ytr = d.ysyn := by
      have := h.1.symm.trans h.2.1
      simp only [Except.ok.injEq, Prod.mk.injEq] at this
      exact this
    rw [columnScores_eq_of_iso _ _ _ M sc c d hiso, h12.1, h12.2]
    cases g : get_prediction_score d.Xsyn d.ysyn d.Xte d.yte M sc with
    | error e => rfl
    | ok r =>
      show (r - r) ^ 2 = 0
      ring

theorem columnContribution_of_not_succeeded (train test synthetic : DataFrame)
    (M : ModelFn) (sc : ScoreFn) (c : String)
    (h : columnSucceeded train test synthetic M sc c = false) :
    columnContribution train test synthetic M sc c = 0 := by
  unfold columnSucceeded at h
  unfold columnContribution
  cases hcs : columnScores train test synthetic M sc c with
  | error e => rfl
  | ok p => rw [hcs] at h; exact absurd h (by simp)

theorem sum_map_eq_sum_filter (l : List String) (f : String → ℚ)
    (p : String → Bool) (h : ∀ c ∈ l, p c = false → f c = 0) :
    (l.map f).sum = ((l.filter p).map f).sum := by
  induction l with
  | nil => rfl
  | cons a l ih =>
    simp only [List.map_cons, List.sum_cons, List.filter_cons]
    cases hp : p a with
    | true =>
      simp only [if_pos, List.map_cons, List.sum_cons]
      rw [ih (fun c hc hf => h c (List.mem_cons_of_mem _ hc) hf)]
    | false =>
      rw [h a (List.mem_cons_self a l) hp, zero_add]
      simp only [Bool.false_eq_true, if_neg]
      exact ih (fun c hc hf => h c (List.mem_cons_of_mem _ hc) hf)

theorem np_unique_counts_snd (col : List ℚ) :
    (np_unique_counts col).2 = (np_unique col).map (fun v => col.count v) := rfl

theorem counts_getD_eq (col : List ℚ) (h : 1 < (np_unique col).length) :
    ((np_unique col).map (fun v => col.count v)).getD 1 0 =
      col.count ((np_unique col).getD 1 0) := by
  rw [List.getD_eq_getElem _ _ (by simpa using h), List.getD_eq_getElem _ _ h]
  simp

theorem compute_prop_ok_eq (df : DataFrame) (c : String) (col : List ℚ) (p : ℚ)
    (hcol : getCol df c = .ok col) (hp : compute_prop col = .ok p) :
    p = claim_marginal df c := by
  unfold compute_prop at hp
  by_cases hlen : col.length = 0
  · rw [if_pos hlen] at hp; exact absurd hp (by simp)
  · rw [if_neg hlen] at hp
    simp only [Except.ok.injEq] at hp
    subst hp
    unfold claim_marginal
    simp only [hcol]
    rw [np_unique_counts_snd, List.length_map]
    by_cases h2 : (np_unique col).length ≤ 1
    · rw [if_pos h2, if_pos (Nat.lt_succ_iff.mpr h2), zero_div]
    · rw [if_neg h2, if_neg (fun hlt => h2 (Nat.lt_succ_iff.mp hlt))]
      congr 1
      exact_mod_cast counts_getD_eq col (by omega)

theorem propsLoop_ok_sum (real synthetic : DataFrame) :
    ∀ (cols : List String) (ps : List (ℚ × ℚ)),
    propsLoop real synthetic cols = .ok ps →
    (ps.map (fun p => (p.1 - p.2) ^ 2)).sum =
      (cols.map (fun c =>
        (claim_marginal real c - claim_marginal synthetic c) ^ 2)).sum := by
  intro cols
  induction cols with
  | nil =>
    intro ps h
    simp only [propsLoop, Except.ok.injEq] at h
    subst h
    simp
  | cons c cs ih =>
    intro ps h
    simp only [propsLoop] at h
    cases h1 : getCol real c with
    | error e => simp only [h1] at h; exact absurd h (by simp)
    | ok colR =>
      simp only [h1] at h
      cases h2 : getCol synthetic c with
      | error e => simp only [h2] at h; exact absurd h (by simp)
      | ok colS =>
        simp only [h2] at h
        cases h3 : compute_prop colR with
        | error e => simp only [h3] at h; exact absurd h (by simp)
        | ok pR =>
          simp only [h3] at h
          cases h4 : compute_prop colS with
          | error e => simp only [h4] at h; exact absurd h (by simp)
          | ok pS =>
            simp only [h4] at h
            cases h5 : propsLoop real synthetic cs with
            | error e => simp only [h5] at h; exact absurd h (by simp)
            | ok ps' =>
              simp only [h5] at h
              simp only [Except.ok.injEq] at h
              subst h
              simp only [List.map_cons, List.sum_cons]
              rw [compute_prop_ok_eq real c colR pR h1 h3,
                  compute_prop_ok_eq synthetic c colS pS h2 h4,
                  ih ps' h5]

/-! ## Claim theorems -/

/-- C2: if the fit/predict/score of a column raises (including the generic
failure raised when the unique training-label or test-label set is empty),
the exception is caught in `feature_prediction_evaluation`: the column
contributes nothing (neither score list grows) and the loop's result is
exactly that of the remaining columns. (The printed diagnostic is an I/O
side effect not modelled here.) -/
theorem C2_failed_column_skipped (train test synthetic : DataFrame)
    (M : ModelFn) (sc : ScoreFn) (c : String) (cs : List String) (d : IsoData)
    (hiso : columnIsolates train test synthetic c = .ok d)
    (hfail : d.ytr = [] ∨ d.yte = [] ∨
        (∃ e, get_prediction_score d.Xtr d.ytr d.Xte d.yte M sc = .error e) ∨
        (∃ e, get_prediction_score d.Xsyn d.ysyn d.Xte d.yte M sc = .error e)) :
    evalScores train test synthetic M sc (c :: cs) =
      evalScores train test synthetic M sc cs := by
  have hcs : ∃ e, columnScores train test synthetic M sc c = .error e := by
    rcases hfail with h | h | h | h
    · exact columnScores_error_of_gps _ _ _ M sc c d hiso
        (Or.inl ⟨_, get_prediction_score_error_of_nil _ _ _ _ M sc (Or.inl h)⟩)
    · exact columnScores_error_of_gps _ _ _ M sc c d hiso
        (Or.inl ⟨_, get_prediction_score_error_of_nil _ _ _ _ M sc (Or.inr h)⟩)
    · exact columnScores_error_of_gps _ _ _ M sc c d hiso (Or.inl h)
    · exact columnScores_error_of_gps _ _ _ M sc c d hiso (Or.inr h)
  obtain ⟨e, he⟩ := hcs
  simp only [evalScores, hiso, he]
  cases hrec : evalScores train test synthetic M sc cs with
  | error e2 => rfl
  | ok p => obtain ⟨rs, ss⟩ := p; rfl

/-- C2 witness: with a scoring function that always raises, column A of the
example tables is skipped and the loop result equals that of the remaining
column list. -/
theorem C2_witness :
    evalScores exTrain exTest exTrain exModel2 exScoreFail ["A", "B"] =
      evalScores exTrain exTest exTrain exModel2 exScoreFail ["B"] :=
  C2_failed_column_skipped exTrain exTest exTrain exModel2 exScoreFail "A" ["B"]
    ⟨[[1], [0], [1], [1]], [0, 1, 0, 1], [[1], [0], [1], [1]], [0, 1, 0, 1],
     [[1], [0]], [0, 1]⟩
    (by rfl)
    (Or.inr (Or.inr (Or.inl ⟨"ValueError: could not score", by rfl⟩)))

/-- C4: whenever the model's fit or predict step throws (and the unique
label sets are nonempty, so the guard does not fire first),
`get_prediction_score` does not propagate that exception: it scores the
constant fallback vector, which has the holdout's length and whose entries
all equal the first training label. -/
theorem C4_constant_fallback (X_train : List (List ℚ)) (y_train : List ℚ)
    (X_test : List (List ℚ)) (y_test : List ℚ) (M : ModelFn) (sc : ScoreFn)
    (htr : y_train ≠ []) (hte : y_test ≠ [])
    (hthrow : M X_train y_train X_test = none) :
    get_prediction_score X_train y_train X_test y_test M sc =
      sc y_test (y_test.map (fun _ => y_train.headD 0)) ∧
    (y_test.map (fun _ => y_train.headD 0)).length = y_test.length ∧
    ∀ x ∈ y_test.map (fun _ => y_train.headD 0), x = y_train.headD 0 := by
  refine ⟨?_, by simp, ?_⟩
  · unfold get_prediction_score
    have hncond : ¬((np_unique y_train).length = 0 ∨
        (np_unique y_test).length = 0) := by
      rintro (h | h)
      · exact htr (by rwa [List.length_eq_zero, np_unique_eq_nil_iff] at h)
      · exact hte (by rwa [List.length_eq_zero, np_unique_eq_nil_iff] at h)
    rw [if_neg hncond, hthrow]
  · intro x hx
    obtain ⟨a, _, he⟩ := List.mem_map.mp hx
    exact he.symm

/-- C4 witness: a training-label vector that is all one class, a model that
always raises, and the sum score applied to the constant fallback. -/
theorem C4_witness :
    ([1, 1] : List ℚ) ≠ [] ∧ ([0, 1] : List ℚ) ≠ [] ∧
    get_prediction_score [[1], [1]] [1, 1] [[0], [2]] [0, 1] exModelFail
      exScoreSum =
      exScoreSum [0, 1] (([0, 1] : List ℚ).map (fun _ => ([1, 1] : List ℚ).headD 0)) :=
  ⟨by decide, by decide,
   (C4_constant_fallback [[1], [1]] [1, 1] [[0], [2]] [0, 1] exModelFail
      exScoreSum (by decide) (by decide) rfl).1⟩

/-- C8: the `training_proportion` parameter is received but never read in
the active code path, so two calls to `feature_prediction_evaluation` that
differ only in it return identical results (and the score lists are built
by `evalScores`, which does not receive the parameter at all). -/
theorem C8_training_proportion_unused (train test synthetic : DataFrame)
    (M : ModelFn) (sc : ScoreFn) (tp1 tp2 : ℚ) (pl : Bool) :
    feature_prediction_evaluation train test synthetic M sc tp1 pl =
      feature_prediction_evaluation train test synthetic M sc tp2 pl := rfl

/-- C10: whenever the column loop completes, the real-score and
synthetic-score lists have equal length (per column, either both scores are
appended or neither is), so the final zip pairs same-column scores. -/
theorem C10_score_lists_equal_length (train test synthetic : DataFrame)
    (M : ModelFn) (sc : ScoreFn) (cols : List String) (rs ss : List ℚ)
    (h : evalScores train test synthetic M sc cols = .ok (rs, ss)) :
    rs.length = ss.length :=
  evalScores_length train test synthetic M sc cols rs ss h

/-- C10 witness: the example run yields score lists [0,2] and [2,2], of
equal length. -/
theorem C10_witness :
    evalScores exTrain exTest exSynth exModel2 exScoreSum ["A", "B"] =
      .ok ([0, 2], [2, 2]) ∧
    ([0, 2] : List ℚ).length = ([2, 2] : List ℚ).length := by
  have h : evalScores exTrain exTest exSynth exModel2 exScoreSum ["A", "B"] =
      .ok ([0, 2], [2, 2]) := by
    norm_num +decide [evalScores, columnIsolates, columnScores, isolate_column,
      get_prediction_score, np_unique, sortList, insertSorted, exTrain, exTest,
      exSynth, exModel2, exScoreSum, List.findIdx?]
    constructor
    · show (1 : ℚ) + 1 = 2
      norm_num
    · show (1 : ℚ) + 1 = 2
      norm_num
  exact ⟨h, C10_score_lists_equal_length exTrain exTest exSynth exModel2
    exScoreSum ["A", "B"] [0, 2] [2, 2] h⟩

/-- C3: the value returned by `feature_prediction_evaluation` is the sum,
over exactly the columns whose evaluation succeeded, of the squared
difference between the real-data score and the synthetic-data score
(`columnContribution` is exactly `(real − synthetic)²` on succeeded
columns, and both scores are computed against the same holdout column). -/
theorem C3_aggregate_is_sum_over_succeeded (train test synthetic : DataFrame)
    (M : ModelFn) (sc : ScoreFn) (tp : ℚ) (pl : Bool) (v : ℚ)
    (h : feature_prediction_evaluation train test synthetic M sc tp pl = .ok v) :
    v = ((train.columns.filter (columnSucceeded train test synthetic M sc)).map
          (columnContribution train test synthetic M sc)).sum := by
  unfold feature_prediction_evaluation at h
  by_cases hset : eqSet train.columns synthetic.columns = true
  · rw [if_pos hset] at h
    cases hev : evalScores train test synthetic M sc train.columns with
    | error e => simp [hev] at h
    | ok p =>
      obtain ⟨rs, ss⟩ := p
      simp only [hev, Except.ok.injEq] at h
      subst h
      rw [evalScores_ok_aggregate train test synthetic M sc train.columns rs ss
        hev]
      exact sum_map_eq_sum_filter _ _ _
        (fun c _ hf =>
          columnContribution_of_not_succeeded train test synthetic M sc c hf)
  · rw [if_neg hset] at h
    exact absurd h (by simp)

/-- C3 witness: on the example tables the call returns 4, which equals the
sum of squared score differences over the succeeded columns. -/
theorem C3_witness :
    feature_prediction_evaluation exTrain exTest exSynth exModel2 exScoreSum
      (4 / 5) false = .ok 4 ∧
    (4 : ℚ) =
      ((exTrain.columns.filter
          (columnSucceeded exTrain exTest exSynth exModel2 exScoreSum)).map
        (columnContribution exTrain exTest exSynth exModel2 exScoreSum)).sum := by
  have h : feature_prediction_evaluation exTrain exTest exSynth exModel2
      exScoreSum (4 / 5) false = .ok 4 := by
    norm_num +decide [feature_prediction_evaluation, evalScores, columnIsolates,
      columnScores, isolate_column, get_prediction_score, np_unique, sortList,
      insertSorted, eqSet, aggregate, exTrain, exTest, exSynth, exModel2,
      exScoreSum, List.findIdx?]
    show (1 : ℚ) + 1 - (1 + 1) = 0
    norm_num
  exact ⟨h, C3_aggregate_is_sum_over_succeeded exTrain exTest exSynth exModel2
    exScoreSum (4 / 5) false 4 h⟩

/-- C5: when the synthetic table is the real training table itself, every
column's real and synthetic scores are computed from identical inputs, so
any completed call returns an aggregate of 0. -/
theorem C5_identical_tables_zero (train test : DataFrame) (M : ModelFn)
    (sc : ScoreFn) (tp : ℚ) (pl : Bool) (v : ℚ)
    (h : feature_prediction_evaluation train test train M sc tp pl = .ok v) :
    v = 0 := by
  unfold feature_prediction_evaluation at h
  rw [if_pos (eqSet_refl train.columns)] at h
  cases hev : evalScores train test train M sc train.columns with
  | error e => simp [hev] at h
  | ok p =>
    obtain ⟨rs, ss⟩ := p
    simp only [hev, Except.ok.injEq] at h
    subst h
    rw [evalScores_ok_aggregate train test train M sc train.columns rs ss hev]
    refine List.sum_eq_zero (fun x hx => ?_)
    obtain ⟨c, _, rfl⟩ := List.mem_map.mp hx
    exact columnContribution_self train test M sc c

/-- C5 witness: the spec's end-to-end example (synthetic = real-train)
returns aggregate 0. -/
theorem C5_witness :
    feature_prediction_evaluation exTrain exTest exTrain exModel2 exScoreSum
      (4 / 5) false = .ok 0 ∧ (0 : ℚ) = 0 := by
  have h : feature_prediction_evaluation exTrain exTest exTrain exModel2
      exScoreSum (4 / 5) false = .ok 0 := by
    norm_num +decide [feature_prediction_evaluation, evalScores, columnIsolates,
      columnScores, isolate_column, get_prediction_score, np_unique, sortList,
      insertSorted, eqSet, aggregate, exTrain, exTest, exModel2, exScoreSum,
      List.findIdx?]
  exact ⟨h, C5_identical_tables_zero exTrain exTest exModel2 exScoreSum (4 / 5)
    false 0 h⟩

/-- C6: for every completed call, `feature_probabilities_evaluation` returns
the sum over the columns of the squared difference between the two sides'
marginal probabilities, where each side's probability is the count of the
second sorted distinct value (index 1 of the unique values) divided by the
row count, and 0 when that side has fewer than two distinct values. -/
theorem C6_probabilities_sum (real synthetic : DataFrame) (pl : Bool) (v : ℚ)
    (h : feature_probabilities_evaluation real synthetic pl = .ok v) :
    v = (real.columns.map (fun c =>
          (claim_marginal real c - claim_marginal synthetic c) ^ 2)).sum := by
  unfold feature_probabilities_evaluation at h
  by_cases hset : eqSet real.columns synthetic.columns = true
  · rw [if_pos hset] at h
    cases hp : propsLoop real synthetic real.columns with
    | error e => simp [hp] at h
    | ok ps =>
      simp only [hp, Except.ok.injEq] at h
      subst h
      exact propsLoop_ok_sum real synthetic real.columns ps hp
  · rw [if_neg hset] at h
    exact absurd h (by simp)

/-- C6 witness: column A has a single distinct value on both sides
(probability 0 each), column B has probabilities 2/4 and 3/4; the aggregate
is (0-0)² + (1/2 - 3/4)² = 1/16. -/
theorem C6_witness :
    feature_probabilities_evaluation exReal6 exSynth6 false = .ok (1 / 16) ∧
    (1 / 16 : ℚ) = (exReal6.columns.map (fun c =>
        (claim_marginal exReal6 c - claim_marginal exSynth6 c) ^ 2)).sum := by
  have h : feature_probabilities_evaluation exReal6 exSynth6 false =
      .ok (1 / 16) := by
    norm_num +decide [feature_probabilities_evaluation, propsLoop, getCol,
      compute_prop, np_unique_counts, np_unique, sortList, insertSorted, eqSet,
      exReal6, exSynth6, List.findIdx?, List.count, List.dedup]
  exact ⟨h, C6_probabilities_sum exReal6 exSynth6 false (1 / 16) h⟩

/-- C7: with duplicate-free column labels (as pandas tables built from
arrays have), swapping which table is passed as real-train and which as
synthetic leaves a completed evaluation's aggregate unchanged: each
column's two scores are exchanged and (a − b)² = (b − a)². -/
theorem C7_swap_symmetric (train test synthetic : DataFrame) (M : ModelFn)
    (sc : ScoreFn) (tp : ℚ) (pl : Bool) (v : ℚ)
    (h1 : train.columns.Nodup) (h2 : synthetic.columns.Nodup)
    (h : feature_prediction_evaluation train test synthetic M sc tp pl = .ok v) :
    feature_prediction_evaluation synthetic test train M sc tp pl = .ok v := by
  unfold feature_prediction_evaluation at h ⊢
  by_cases hset : eqSet train.columns synthetic.columns = true
  · rw [if_pos hset] at h
    rw [if_pos (eqSet_symm _ _ hset)]
    cases hev : evalScores train test synthetic M sc train.columns with
    | error e => simp [hev] at h
    | ok p =>
      obtain ⟨rs, ss⟩ := p
      simp only [hev, Except.ok.injEq] at h
      subst h
      have hmem : ∀ x, x ∈ train.columns ↔ x ∈ synthetic.columns :=
        (eqSet_iff _ _).mp hset
      have hiso_all : ∀ c ∈ train.columns,
          ∃ d, columnIsolates train test synthetic c = .ok d :=
        (evalScores_ok_iff train test synthetic M sc train.columns).mp ⟨_, hev⟩
      have hiso_sw : ∀ c ∈ synthetic.columns,
          ∃ d, columnIsolates synthetic test train c = .ok d := by
        intro c hc
        obtain ⟨d, hd⟩ := hiso_all c ((hmem c).mpr hc)
        have hm := (columnIsolates_ok_iff train test synthetic c).mp ⟨d, hd⟩
        exact (columnIsolates_ok_iff synthetic test train c).mpr
          ⟨hm.2.1, hm.1, hm.2.2⟩
      obtain ⟨p2, hev2⟩ :=
        (evalScores_ok_iff synthetic test train M sc synthetic.columns).mpr
          hiso_sw
      obtain ⟨rs2, ss2⟩ := p2
      have hperm : synthetic.columns.Perm train.columns :=
        (List.perm_ext_iff_of_nodup h2 h1).mpr (fun a => (hmem a).symm)
      have key : aggregate rs2 ss2 = aggregate rs ss := by
        rw [evalScores_ok_aggregate synthetic test train M sc synthetic.columns
              rs2 ss2 hev2,
            evalScores_ok_aggregate train test synthetic M sc train.columns
              rs ss hev]
        calc (synthetic.columns.map
                (columnContribution synthetic test train M sc)).sum
            = (synthetic.columns.map
                (columnContribution train test synthetic M sc)).sum := by
              refine congrArg List.sum (List.map_congr_left ?_)
              intro c _
              exact columnContribution_swap train test synthetic M sc c
          _ = (train.columns.map
                (columnContribution train test synthetic M sc)).sum :=
              (hperm.map _).sum_eq
      simp only [hev2, key]
  · rw [if_neg hset] at h
    exact absurd h (by simp)

/-- C7 witness: the example run returns 4, and so does the run with the
real-train and synthetic tables swapped. -/
theorem C7_witness :
    exTrain.columns.Nodup ∧ exSynth.columns.Nodup ∧
    feature_prediction_evaluation exSynth exTest exTrain exModelFail
      exScoreSum (4 / 5) false = .ok 4 := by
  have h : feature_prediction_evaluation exTrain exTest exSynth exModelFail
      exScoreSum (4 / 5) false = .ok 4 := by
    norm_num +decide [feature_prediction_evaluation, evalScores, columnIsolates,
      columnScores, isolate_column, get_prediction_score, np_unique, sortList,
      insertSorted, eqSet, aggregate, exTrain, exTest, exSynth, exModelFail,
      exScoreSum, List.findIdx?]
    show (1 : ℚ) + 1 - (1 + 1) = 0
    norm_num
  exact ⟨by decide, by decide,
    C7_swap_symmetric exTrain exTest exSynth exModelFail exScoreSum (4 / 5)
      false 4 (by decide) (by decide) h⟩

theorem keyError_ne_schema (s : String) :
    "KeyError: " ++ s ≠ "Columns of given datasets are not identical." := by
  intro h
  have hd := congrArg String.data h
  rw [String.data_append] at hd
  have h1 : "KeyError: ".data = ['K', 'e', 'y', 'E', 'r', 'r', 'o', 'r', ':', ' '] := rfl
  rw [h1] at hd
  have h2 : "Columns of given datasets are not identical.".data =
      'C' :: "olumns of given datasets are not identical.".data := rfl
  rw [h2] at hd
  simp at hd

/-- C9: a column present in train and synthetic but absent from test is not
skipped: the test-table isolation runs outside the per-column handler, so
its KeyError propagates and aborts the entire call, and the upfront check
(which compares only the train and synthetic column sets) does not produce
the schema-mismatch error. -/
theorem C9_missing_test_column_aborts (train test synthetic : DataFrame)
    (M : ModelFn) (sc : ScoreFn) (tp : ℚ) (pl : Bool) (c : String)
    (hset : eqSet train.columns synthetic.columns = true)
    (hc : c ∈ train.columns) (hcnot : c ∉ test.columns) :
    ∃ c2, c2 ∉ test.columns ∧
      feature_prediction_evaluation train test synthetic M sc tp pl =
        .error ("KeyError: " ++ c2) ∧
      "KeyError: " ++ c2 ≠ "Columns of given datasets are not identical." := by
  unfold feature_prediction_evaluation
  rw [if_pos hset]
  cases hev : evalScores train test synthetic M sc train.columns with
  | ok p =>
    exfalso
    have hiso :=
      (evalScores_ok_iff train test synthetic M sc train.columns).mp
        ⟨p, hev⟩ c hc
    have hm := (columnIsolates_ok_iff train test synthetic c).mp hiso
    exact hcnot hm.2.2
  | error e =>
    obtain ⟨c2, hc2mem, he, hisoerr⟩ :=
      evalScores_error_shape train test synthetic M sc train.columns e hev
    refine ⟨c2, ?_, ?_, keyError_ne_schema c2⟩
    · intro hc2test
      have hok : ∃ d, columnIsolates train test synthetic c2 = .ok d :=
        (columnIsolates_ok_iff train test synthetic c2).mpr
          ⟨hc2mem, ((eqSet_iff _ _).mp hset c2).mp hc2mem, hc2test⟩
      obtain ⟨d, hd⟩ := hok
      rw [hisoerr] at hd
      exact absurd hd (by simp)
    · simp only [hev]
      rw [he]

/-- C9 witness: with the test table lacking column B, the call aborts with
the KeyError from isolation, not the schema-mismatch error. -/
theorem C9_witness :
    feature_prediction_evaluation exTrain exTestShort exTrain exModel2
      exScoreSum (4 / 5) false = .error ("KeyError: " ++ "B") ∧
    feature_prediction_evaluation exTrain exTestShort exTrain exModel2
      exScoreSum (4 / 5) false ≠
      .error "Columns of given datasets are not identical." := by
  refine ⟨rfl, ?_⟩
  obtain ⟨c2, _, heq, hne⟩ := C9_missing_test_column_aborts exTrain exTestShort
    exTrain exModel2 exScoreSum (4 / 5) false "B" rfl (by decide) (by decide)
  rw [heq]
  intro hcontra
  injection hcontra with h
  exact hne h

/-- C1 counterexample: the test table's column set differs from the (equal)
train and synthetic column sets, yet the call does not raise the
schema-mismatch exception before isolating columns — it proceeds and fails
later with a KeyError from the test-table column isolation, so not every
pairwise column-set mismatch among the three tables is detected by the
upfront check. -/
theorem C1_counterexample :
    eqSet exTrain.columns exTestShort.columns = false ∧
    feature_prediction_evaluation exTrain exTestShort exTrain exModel2
      exScoreSum (4 / 5) false = .error ("KeyError: " ++ "B") ∧
    "KeyError: " ++ "B" ≠ "Columns of given datasets are not identical." :=
  ⟨rfl, rfl, by decide⟩

/-- C1 amended: the upfront schema check compares only the train and
synthetic column sets; when those differ, both
`feature_prediction_evaluation` and `feature_probabilities_evaluation`
raise immediately (before any column is isolated or model fitted) with the
schema-mismatch error. A mismatch involving the test table is not detected
this way. -/
theorem C1_schema_check (train test synthetic : DataFrame) (M : ModelFn)
    (sc : ScoreFn) (tp : ℚ) (pl pl2 : Bool)
    (h : eqSet train.columns synthetic.columns = false) :
    feature_prediction_evaluation train test synthetic M sc tp pl =
      .error "Columns of given datasets are not identical." ∧
    feature_probabilities_evaluation train synthetic pl2 =
      .error "Columns of given datasets are not identical." := by
  constructor
  · unfold feature_prediction_evaluation
    rw [if_neg (by simp [h])]
  · unfold feature_probabilities_evaluation
    rw [if_neg (by simp [h])]

/-- C1 witness: tables with column sets differing between train and
synthetic make both evaluations raise the schema error at once. -/
theorem C1_witness :
    eqSet exTrain.columns exMism.columns = false ∧
    feature_prediction_evaluation exTrain exTest exMism exModel2 exScoreSum
      (4 / 5) false =
      .error "Columns of given datasets are not identical." ∧
    feature_probabilities_evaluation exTrain exMism false =
      .error "Columns of given datasets are not identical." := by
  have h : eqSet exTrain.columns exMism.columns = false := by decide
  obtain ⟨ha, hb⟩ := C1_schema_check exTrain exTest exMism exModel2 exScoreSum
    (4 / 5) false false h
  exact ⟨h, ha, hb⟩
